import Mathlib

/-!
Verification of the gRPC reactor route-guide client core
(`src/client/reactor_client.h` and
`src/applications/reactor/route_guide_active_reactor_client.cpp`).

The reactor classes are shallowly embedded as pure state machines.  A reactor
state records the member fields of the C++ object (`response_`, `status_`,
`response_ready_`, `read_no_more_`); each member function becomes a Lean
function from the state to a new state, together with the list of calls it
issues on the underlying gRPC transport (`StartRead`, `AddHold`, `RemoveHold`,
`TryCancel`) and the application callbacks it invokes.  The transport writing a
freshly received message into the registered `response_` buffer before firing
`OnReadDone(true)` / `OnDone` is modelled by an explicit `deliver` write.
-/

namespace RpcReactor

/-- Shallow embedding of `grpc::Status`: an error code plus a message.
`grpc::Status::OK` has code 0; a default-constructed status is OK. -/
structure GrpcStatus where
  code : Nat
  message : String
deriving DecidableEq, Repr

/-- `grpc::Status::ok()`: true iff the code is 0 (OK). -/
def GrpcStatus.ok (s : GrpcStatus) : Bool := s.code == 0

/-- A default-constructed `grpc::Status` (OK, empty message). -/
def GrpcStatus.initial : GrpcStatus := ⟨0, ""⟩

/-- Observable calls a reactor member function makes: requests issued on the
gRPC transport and invocations of the application-registered callbacks. -/
inductive Action where
  /-- `ClientReadReactor::StartRead(&response_)`: fetch the next stream item. -/
  | startRead
  /-- `ClientReadReactor::AddHold()`: pause the RPC, keep it alive. -/
  | addHold
  /-- `ClientReadReactor::RemoveHold()`: release the hold, resume the RPC. -/
  | removeHold
  /-- `ClientContext::TryCancel()`: best-effort out-of-band cancel signal. -/
  | cancelSignal
  /-- invocation of the `OnReadDoneOkCallback`, recording its decision. -/
  | cbOk (hold : Bool)
  /-- invocation of the `OnReadDoneNOkCallback`. -/
  | cbNok
  /-- invocation of the `OnDoneCallback`. -/
  | cbDone
deriving DecidableEq, Repr

namespace Client

/-! ### ProxyUnaryReactor (src/client/reactor_client.h, lines 34-131) -/

/-- Member fields of `ProxyUnaryReactor<ResponseT>`: the `response_` holder,
the `status_` set by `OnDone`, and the atomic `response_ready_` flag. -/
structure UnaryState (R : Type) where
  response : R
  status : GrpcStatus
  response_ready : Bool
deriving DecidableEq, Repr

/-- A freshly constructed `ProxyUnaryReactor`: default-constructed response
`r0`, OK default status, `response_ready_{false}`. -/
def UnaryState.initial {R : Type} (r0 : R) : UnaryState R :=
  ⟨r0, GrpcStatus.initial, false⟩

/-- The transport writing a received message into the registered `response_`
buffer (gRPC fills the response object before invoking `OnDone`). -/
def udeliver {R : Type} (r : R) (st : UnaryState R) : UnaryState R :=
  { st with response := r }

/-- `ProxyUnaryReactor::GetResponse(ResponseT& response)`:
if `!response_ready_` return false; otherwise `swap(response_, response)`,
clear `response_ready_`, return true.  The result is the returned flag, the
new reactor state, and the content of the caller's `response` argument after
the call (unchanged on failure, the swapped-in payload on success). -/
def UGetResponse {R : Type} (st : UnaryState R) (response : R) :
    Bool × UnaryState R × R :=
  if st.response_ready = false then (false, st, response)
  else (true, { st with response := response, response_ready := false },
        st.response)

/-- `ProxyUnaryReactor::OnDone(const grpc::Status& status)`:
set `response_ready_ = status.ok()`; then, only when the `done` callback slot
is non-empty, copy `status_ = status` and invoke the callback.  `done` is
whether `cbs_.done` holds a callable.  Returns the new state and the callback
invocations performed. -/
def UOnDone {R : Type} (done : Bool) (s : GrpcStatus) (st : UnaryState R) :
    UnaryState R × List Action :=
  let st1 := { st with response_ready := s.ok }
  if done then ({ st1 with status := s }, [Action.cbDone]) else (st1, [])

/-- `ProxyUnaryReactor::TryCancel()`: sends `context_->TryCancel()`; it touches
no member field of the reactor. -/
def UTryCancel {R : Type} (st : UnaryState R) : UnaryState R × List Action :=
  (st, [Action.cancelSignal])

/-- External stimuli driving a `ProxyUnaryReactor`. -/
inductive UInput (R : Type) where
  /-- transport writes payload `r` and fires `OnDone(s)`. -/
  | complete (r : R) (s : GrpcStatus)
  /-- application calls `GetResponse(out)`. -/
  | take (out : R)
  /-- some thread calls `TryCancel()`. -/
  | cancel
deriving DecidableEq, Repr

/-- One stimulus applied to a unary-reactor state (`done` is the presence of
the `done` callback slot). -/
def stepU {R : Type} (done : Bool) (st : UnaryState R) :
    UInput R → UnaryState R × List Action
  | .complete r s => UOnDone done s (udeliver r st)
  | .take out =>
      let t := UGetResponse st out
      (t.2.1, [])
  | .cancel => UTryCancel st

/-- A sequence of stimuli applied to a unary-reactor state, accumulating the
issued actions in order. -/
def runU {R : Type} (done : Bool) (st : UnaryState R) :
    List (UInput R) → UnaryState R × List Action
  | [] => (st, [])
  | i :: l =>
      let p := stepU done st i
      let q := runU done p.1 l
      (q.1, p.2 ++ q.2)

/-! ### ProxyReadReactor (src/client/reactor_client.h, lines 136-294) -/

/-- Callback slots of `ProxyReadReactor<ResponseT>::callbacks`.  The `ok` slot
returns the hold decision as a function of the received response; `nok` and
`done` are modelled by their presence (they have no effect on reactor state). -/
structure ReadCallbacks (R : Type) where
  ok : Option (R → Bool)
  nok : Bool
  done : Bool

/-- Member fields of `ProxyReadReactor<ResponseT>`: the `response_` holder,
`status_`, the atomic `response_ready_`, and the atomic `read_no_more_`. -/
structure ReadState (R : Type) where
  response : R
  status : GrpcStatus
  response_ready : Bool
  read_no_more : Bool
deriving DecidableEq, Repr

/-- A freshly constructed `ProxyReadReactor`: default response `r0`, OK default
status, `response_ready_{false}`, `read_no_more_{false}`. -/
def ReadState.initial {R : Type} (r0 : R) : ReadState R :=
  ⟨r0, GrpcStatus.initial, false, false⟩

/-- The transport writing a received stream item into the `response_` buffer
registered by the previous `StartRead(&response_)`, before `OnReadDone(true)`. -/
def deliver {R : Type} (r : R) (st : ReadState R) : ReadState R :=
  { st with response := r }

/-- `ProxyReadReactor::GetResponse(ResponseT& response)`:
if `!response_ready_` return false; otherwise `swap(response_, response)`,
clear `response_ready_`, and, when `!read_no_more_`, call
`StartRead(&response_)` and then `RemoveHold()` — in that order; return true.
Result: returned flag, new state, content of the caller's `response` argument
after the call, and the transport calls issued. -/
def GetResponse {R : Type} (st : ReadState R) (response : R) :
    Bool × ReadState R × R × List Action :=
  if st.response_ready = false then (false, st, response, [])
  else
    let st1 : ReadState R :=
      { st with response := response, response_ready := false }
    if st1.read_no_more = false then
      (true, st1, st.response, [Action.startRead, Action.removeHold])
    else
      (true, st1, st.response, [])

/-- `ProxyReadReactor::OnReadDone(const bool ok)`:
set `response_ready_ = ok`.  If `ok` is false: set `read_no_more_ = true` and
invoke the `nok` callback when present.  If `ok` is true: when the `ok`
callback is present and returns true, call `AddHold()` and return; otherwise
clear `response_ready_` and call `StartRead(&response_)`. -/
def OnReadDone {R : Type} (cbs : ReadCallbacks R) (ok : Bool)
    (st : ReadState R) : ReadState R × List Action :=
  let st1 := { st with response_ready := ok }
  if ok = false then
    ({ st1 with read_no_more := true },
     if cbs.nok then [Action.cbNok] else [])
  else
    match cbs.ok with
    | some f =>
        if f st1.response then (st1, [Action.cbOk true, Action.addHold])
        else ({ st1 with response_ready := false },
              [Action.cbOk false, Action.startRead])
    | none => ({ st1 with response_ready := false }, [Action.startRead])

/-- `ProxyReadReactor::OnDone(const grpc::Status& status)`:
set `read_no_more_ = true`; then, only when the `done` callback slot is
non-empty, copy `status_ = status` and invoke the callback. -/
def ReadOnDone {R : Type} (cbs : ReadCallbacks R) (s : GrpcStatus)
    (st : ReadState R) : ReadState R × List Action :=
  let st1 := { st with read_no_more := true }
  if cbs.done then ({ st1 with status := s }, [Action.cbDone]) else (st1, [])

/-- `ProxyReadReactor::TryCancel()`: sends `context_->TryCancel()`; it touches
no member field of the reactor. -/
def ReadTryCancel {R : Type} (st : ReadState R) : ReadState R × List Action :=
  (st, [Action.cancelSignal])

/-- External stimuli driving a `ProxyReadReactor`. -/
inductive RInput (R : Type) where
  /-- transport writes item `r` into the read buffer, fires `OnReadDone(true)`. -/
  | readItem (r : R)
  /-- transport fires `OnReadDone(false)`: the stream reader is closed. -/
  | readFail
  /-- transport fires `OnDone(s)`: the RPC is done. -/
  | finish (s : GrpcStatus)
  /-- application calls `GetResponse(out)`. -/
  | take (out : R)
  /-- some thread calls `TryCancel()`. -/
  | cancel
deriving DecidableEq, Repr

/-- One stimulus applied to a read-reactor state. -/
def stepR {R : Type} (cbs : ReadCallbacks R) (st : ReadState R) :
    RInput R → ReadState R × List Action
  | .readItem r => OnReadDone cbs true (deliver r st)
  | .readFail => OnReadDone cbs false st
  | .finish s => ReadOnDone cbs s st
  | .take out =>
      let t := GetResponse st out
      (t.2.1, t.2.2.2)
  | .cancel => ReadTryCancel st

/-- A sequence of stimuli applied to a read-reactor state, accumulating the
issued transport calls and callback invocations in order. -/
def runR {R : Type} (cbs : ReadCallbacks R) (st : ReadState R) :
    List (RInput R) → ReadState R × List Action
  | [] => (st, [])
  | i :: l =>
      let p := stepR cbs st i
      let q := runR cbs p.1 l
      (q.1, p.2 ++ q.2)

end Client

end RpcReactor

namespace RouteGuideApp

/-! ### Admission control
(`src/applications/reactor/route_guide_active_reactor_client.cpp`,
`RouteGuideClient::GetFeature` / `RouteGuideClient::ListFeatures` and the
`reactor_map_` member; RPC keys from `src/rg_service/route_guide_service.h`). -/

/-- `routeguide::RpcMethods`: the operation keys of `reactor_map_`. -/
inductive RpcMethods where
  | kGetFeature
  | kListFeatures
  | kRecordRoute
  | kRouteChat
deriving DecidableEq, Repr

/-- The `reactor_map_` member: each key holds the owning `unique_ptr` slot,
empty (`none`) when no reactor is live for that key.  Live reactors are
identified by a numeric id standing for the heap address. -/
def ReactorMap := RpcMethods → Option Nat

/-- Call-site effects of a `RouteGuideClient` proxy method. -/
inductive AppAction where
  /-- `std::make_unique<ClientReactor>(...)`: constructing the reactor starts
  the RPC on the channel. -/
  | createReactor (id : Nat)
deriving DecidableEq, Repr

/-- The shared admission logic of `RouteGuideClient::GetFeature` and
`RouteGuideClient::ListFeatures`: if `reactor_map_[RpcKey]` is non-null the
call is ignored (logged and dropped, nothing created); otherwise a new reactor
is constructed — which issues the RPC — and stored in the slot.  Returns the
new map, whether the call was admitted, and the call-site effects. -/
def startCall (m : ReactorMap) (key : RpcMethods) (newId : Nat) :
    ReactorMap × Bool × List AppAction :=
  match m key with
  | some _ => (m, false, [])
  | none =>
      (fun k => if k = key then some newId else m k, true,
       [AppAction.createReactor newId])

/-- `RouteGuideClient::GetFeature`: admission under key
`routeguide::GetFeature::RpcKey = kGetFeature`. -/
def GetFeatureCall (m : ReactorMap) (newId : Nat) :
    ReactorMap × Bool × List AppAction :=
  startCall m RpcMethods.kGetFeature newId

/-- `RouteGuideClient::ListFeatures`: admission under key
`routeguide::ListFeatures::RpcKey = kListFeatures`. -/
def ListFeaturesCall (m : ReactorMap) (newId : Nat) :
    ReactorMap × Bool × List AppAction :=
  startCall m RpcMethods.kListFeatures newId

/-- `reactor_.reset()` in the terminal event handlers (`kGetFeatureOnDone`,
`kListFeaturesOnDone`): releases the slot for `key`. -/
def resetReactor (m : ReactorMap) (key : RpcMethods) : ReactorMap :=
  fun k => if k = key then none else m k

/-! ### Event scheduler -/

/-- Modelled from the spec: the EventLoop / Scheduler implementation
(`Event.h`, `EventLoop.h`) is not under `src/`; only its callers and the PoC
tests are.  Per the spec, an event pairs a `name` identifying the registered
handler with an opaque `payload` referencing the originating call handle. -/
structure LoopEvent where
  name : String
  payload : Nat
deriving DecidableEq, Repr

/-- Modelled from the spec: the handler registration table of the scheduler —
each name maps to at most one handler, a function run on the consumer thread
over the application state with the event's payload. -/
def HandlerMap (S : Type) := String → Option (S → Nat → S)

/-- Modelled from the spec: dispatching one dequeued event — look up the
registered handler by name and run it; the returned list records the events
actually dispatched to a handler. -/
def dispatchOne {S : Type} (hs : HandlerMap S) (st : S) (e : LoopEvent) :
    S × List LoopEvent :=
  match hs e.name with
  | some f => (f st e.payload, [e])
  | none => (st, [])

/-- Modelled from the spec: the consumer loop (`EventLoop::Run`) — the single
consumer thread repeatedly dequeues the next event and dispatches it, one
event at a time, in queue order; the dispatch trace lists the handler
invocations in the order they ran. -/
def runLoop {S : Type} (hs : HandlerMap S) (st : S) :
    List LoopEvent → S × List LoopEvent
  | [] => (st, [])
  | e :: q =>
      let p := dispatchOne hs st e
      let r := runLoop hs p.1 q
      (r.1, p.2 ++ r.2)

end RouteGuideApp

open RpcReactor RpcReactor.Client RouteGuideApp

/-! ### Helper lemmas on the read-reactor transition system -/

/-- Every stimulus preserves a set `read_no_more_` flag: no member function of
`ProxyReadReactor` ever clears it. -/
theorem stepR_preserves_terminal {R : Type} (cbs : ReadCallbacks R)
    (st : ReadState R) (i : RInput R) (h : st.read_no_more = true) :
    (stepR cbs st i).1.read_no_more = true := by
  cases i <;>
    simp only [stepR, OnReadDone, deliver, ReadOnDone, GetResponse,
      ReadTryCancel] <;>
    (repeat' split) <;> simp_all

/-- Run version: `read_no_more_`, once set, stays set for ever. -/
theorem runR_preserves_terminal {R : Type} (cbs : ReadCallbacks R)
    (st : ReadState R) (l : List (RInput R)) (h : st.read_no_more = true) :
    ((runR cbs st l).1).read_no_more = true := by
  induction l generalizing st with
  | nil => simpa [runR] using h
  | cons i l ih =>
      simpa [runR] using ih _ (stepR_preserves_terminal cbs st i h)

/-- From a terminated reactor, no stimulus other than an `OnReadDone(true)`
delivery issues `StartRead`. -/
theorem stepR_terminal_no_startRead {R : Type} (cbs : ReadCallbacks R)
    (st : ReadState R) (i : RInput R) (hterm : st.read_no_more = true)
    (hni : ∀ x : R, i ≠ RInput.readItem x) :
    Action.startRead ∉ (stepR cbs st i).2 := by
  cases i <;>
    simp only [stepR, OnReadDone, deliver, ReadOnDone, GetResponse,
      ReadTryCancel] <;>
    (repeat' split) <;> simp_all

/-- Run version of `stepR_terminal_no_startRead`. -/
theorem runR_terminal_no_startRead {R : Type} (cbs : ReadCallbacks R)
    (l : List (RInput R)) :
    ∀ st : ReadState R, st.read_no_more = true →
      (∀ i ∈ l, ∀ x : R, i ≠ RInput.readItem x) →
      Action.startRead ∉ (runR cbs st l).2 := by
  induction l with
  | nil => intro st _ _; simp [runR]
  | cons i l ih =>
      intro st hterm hni
      simp only [runR, List.mem_append]
      push_neg
      refine ⟨stepR_terminal_no_startRead cbs st i hterm
        (hni i (List.mem_cons_self i l)), ?_⟩
      exact ih _ (stepR_preserves_terminal cbs st i hterm)
        (fun j hj => hni j (List.mem_cons_of_mem i hj))

/-- A stimulus that is neither an item delivery nor a `GetResponse` call never
issues `StartRead`, from any state. -/
theorem stepR_quiet_no_startRead {R : Type} (cbs : ReadCallbacks R)
    (st : ReadState R) (i : RInput R)
    (h1 : ∀ x : R, i ≠ RInput.readItem x)
    (h2 : ∀ o : R, i ≠ RInput.take o) :
    Action.startRead ∉ (stepR cbs st i).2 := by
  cases i <;>
    simp only [stepR, OnReadDone, deliver, ReadOnDone, GetResponse,
      ReadTryCancel] <;>
    (repeat' split) <;> simp_all

/-- Run version of `stepR_quiet_no_startRead`: as long as the application does
not call `GetResponse` and no item is delivered, no fetch is issued. -/
theorem runR_quiet_no_startRead {R : Type} (cbs : ReadCallbacks R)
    (st : ReadState R) (l : List (RInput R))
    (h : ∀ i ∈ l, (∀ x : R, i ≠ RInput.readItem x) ∧
      (∀ o : R, i ≠ RInput.take o)) :
    Action.startRead ∉ (runR cbs st l).2 := by
  induction l generalizing st with
  | nil => simp [runR]
  | cons i l ih =>
      simp only [runR, List.mem_append]
      push_neg
      refine ⟨stepR_quiet_no_startRead cbs st i
        (h i (List.mem_cons_self i l)).1 (h i (List.mem_cons_self i l)).2, ?_⟩
      exact ih _ (fun j hj => h j (List.mem_cons_of_mem i hj))

/-- The canonical lock-step schedule of the spec's test: `n` repetitions of
one item delivery followed by one application `GetResponse`. -/
def lockstepInputs {R : Type} (r out : R) : Nat → List (RInput R)
  | 0 => []
  | n + 1 =>
      RInput.readItem r :: RInput.take out :: lockstepInputs r out n

/-- The transport-call trace the lock-step schedule must produce: per item,
the hold decision (callback then `AddHold`) followed by the resume
(`StartRead` then `RemoveHold`). -/
def lockstepTrace : Nat → List Action
  | 0 => []
  | n + 1 =>
      Action.cbOk true :: Action.addHold :: Action.startRead ::
        Action.removeHold :: lockstepTrace n

/-- The lock-step trace contains exactly `n` fetches and `n` hold releases. -/
theorem lockstepTrace_count (n : Nat) :
    (lockstepTrace n).count Action.startRead = n ∧
    (lockstepTrace n).count Action.removeHold = n ∧
    (lockstepTrace n).count Action.addHold = n := by
  induction n with
  | zero => simp [lockstepTrace]
  | succ k ih =>
      simp only [lockstepTrace, List.count_cons]
      refine ⟨?_, ?_, ?_⟩ <;> simp [ih.1, ih.2.1, ih.2.2]

/-- Running the lock-step schedule from a live state with a callback that
holds item `r` produces exactly the lock-step trace. -/
theorem runR_lockstep {R : Type} (cbs : ReadCallbacks R) (f : R → Bool)
    (r out : R) (hcb : cbs.ok = some f) (hold : f r = true) :
    ∀ (n : Nat) (st : ReadState R), st.read_no_more = false →
      (runR cbs st (lockstepInputs r out n)).2 = lockstepTrace n := by
  intro n
  induction n with
  | zero => intro st _; simp [lockstepInputs, lockstepTrace, runR]
  | succ k ih =>
      intro st hlive
      simp [lockstepInputs, runR, stepR, OnReadDone, deliver, GetResponse,
        hcb, hold, lockstepTrace, hlive]
      refine ih _ ?_
      simp

/-! ### Claim theorems -/

/-- C2 (counterexample): the claim says `OnDone(s)` stores `s` on the handle
"regardless of which callbacks are registered".  On the code this fails: with
no `done` callback registered, `OnDone` with a CANCELLED status leaves the
stored status at its default OK value, so `Status()` does not return `s`. -/
theorem unary_onDone_status_counterexample :
    ((UOnDone false (GrpcStatus.mk 1 "CANCELLED")
      (UnaryState.initial (0 : Nat))).1.status) ≠
      GrpcStatus.mk 1 "CANCELLED" := by
  decide

/-- C2 (amended): for every unary call and terminal status `s`, `OnDone(s)`
sets the ready flag to `s.ok()`; when a done callback is registered it also
stores `s` (so `Status()` afterwards returns `s`) and invokes that callback
synchronously within the completion event; when no done callback is
registered, the stored status is left unchanged and no callback runs. -/
theorem unary_onDone_completion {R : Type} (s : GrpcStatus)
    (st : UnaryState R) :
    (UOnDone true s st).1.status = s ∧
    (UOnDone true s st).1.response_ready = s.ok ∧
    (UOnDone true s st).1.response = st.response ∧
    (UOnDone true s st).2 = [Action.cbDone] ∧
    (UOnDone false s st).1.response_ready = s.ok ∧
    (UOnDone false s st).1.status = st.status ∧
    (UOnDone false s st).2 = [] := by
  refine ⟨?_, ?_, ?_, ?_, ?_, ?_, ?_⟩ <;> simp [UOnDone]

/-- C5: for both reactors, `GetResponse(out)` returns false and leaves `out`
and the whole reactor state unchanged whenever `response_ready_` is false
(call failed or response already taken); a failed unary completion clears the
ready flag, so the following take fails; and a second `GetResponse` with no
intervening successful completion returns false for both reactors. -/
theorem getResponse_unavailable {R : Type} (stu : UnaryState R)
    (str : ReadState R) (done : Bool) (s : GrpcStatus) (out out2 : R)
    (hu : stu.response_ready = false) (hr : str.response_ready = false)
    (hfail : s.ok = false) :
    UGetResponse stu out = (false, stu, out) ∧
    GetResponse str out = (false, str, out, []) ∧
    (∀ st' : UnaryState R,
      UGetResponse (UOnDone done s st').1 out = (false, (UOnDone done s st').1, out)) ∧
    (∀ (st' : UnaryState R) (o : R), (UGetResponse st' o).1 = true →
      (UGetResponse (UGetResponse st' o).2.1 out2).1 = false) ∧
    (∀ (st' : ReadState R) (o : R), (GetResponse st' o).1 = true →
      (GetResponse (GetResponse st' o).2.1 out2).1 = false) := by
  refine ⟨?_, ?_, ?_, ?_, ?_⟩
  · simp [UGetResponse, hu]
  · simp [GetResponse, hr]
  · intro st'
    cases done <;> simp [UOnDone, UGetResponse, hfail]
  · intro st' o h
    by_cases hready : st'.response_ready = false
    · simp [UGetResponse, hready] at h
    · simp [UGetResponse, hready]
  · intro st' o h
    by_cases hready : str.response_ready = false <;>
      by_cases hready' : st'.response_ready = false
    · simp [GetResponse, hready'] at h
    · simp only [GetResponse, hready']
      by_cases hterm : st'.read_no_more = false <;> simp [GetResponse, hterm]
    · simp [GetResponse, hready'] at h
    · simp only [GetResponse, hready']
      by_cases hterm : st'.read_no_more = false <;> simp [GetResponse, hterm]

/-- C6: round trip — a payload `r` the transport delivers (written into the
registered `response_` buffer before `OnDone` for the unary reactor, before a
held `OnReadDone(true)` for the stream reactor) is exactly what a subsequent
successful `GetResponse` hands to the caller, and the transfer is an exchange:
the caller's previous `out` value ends up inside the handle (a copy would have
left `r` there). -/
theorem response_round_trip {R : Type} (done : Bool) (s : GrpcStatus)
    (stu : UnaryState R) (cbs : ReadCallbacks R) (f : R → Bool)
    (str : ReadState R) (r out : R)
    (hok : s.ok = true) (hcb : cbs.ok = some f) (hold : f r = true)
    (hlive : str.read_no_more = false) :
    (UGetResponse (UOnDone done s (udeliver r stu)).1 out).1 = true ∧
    (UGetResponse (UOnDone done s (udeliver r stu)).1 out).2.2 = r ∧
    (UGetResponse (UOnDone done s (udeliver r stu)).1 out).2.1.response = out ∧
    (GetResponse (stepR cbs str (RInput.readItem r)).1 out).1 = true ∧
    (GetResponse (stepR cbs str (RInput.readItem r)).1 out).2.2.1 = r ∧
    (GetResponse (stepR cbs str (RInput.readItem r)).1 out).2.1.response = out := by
  cases done <;>
    refine ⟨?_, ?_, ?_, ?_, ?_, ?_⟩ <;>
    simp [UOnDone, udeliver, UGetResponse, stepR, OnReadDone, deliver,
      GetResponse, hok, hcb, hold, hlive]

/-- C7: `TryCancel()` is idempotent and effect-free on the handle's own state:
for both reactors, any number of `TryCancel` calls — interleaved at any point
of the handle's life, i.e. from any reachable state — leaves every observable
field (response, status, ready, terminated flags) exactly as a single call
would (unchanged), emits only the out-of-band cancel signal, and never invokes
the `OnDone` callback. -/
theorem tryCancel_idempotent {R : Type} (done : Bool) (cbs : ReadCallbacks R)
    (stu : UnaryState R) (str : ReadState R) (n : Nat) :
    runU done stu (List.replicate n UInput.cancel) =
      (stu, List.replicate n Action.cancelSignal) ∧
    runR cbs str (List.replicate n RInput.cancel) =
      (str, List.replicate n Action.cancelSignal) ∧
    Action.cbDone ∉ (runU done stu (List.replicate n UInput.cancel)).2 ∧
    Action.cbDone ∉ (runR cbs str (List.replicate n RInput.cancel)).2 := by
  have hu : ∀ (m : Nat) (st : UnaryState R),
      runU done st (List.replicate m UInput.cancel) =
        (st, List.replicate m Action.cancelSignal) := by
    intro m
    induction m with
    | zero => intro st; simp [runU]
    | succ k ih =>
        intro st
        simp [List.replicate_succ, runU, stepU, UTryCancel, ih st]
  have hr : ∀ (m : Nat) (st : ReadState R),
      runR cbs st (List.replicate m RInput.cancel) =
        (st, List.replicate m Action.cancelSignal) := by
    intro m
    induction m with
    | zero => intro st; simp [runR]
    | succ k ih =>
        intro st
        simp [List.replicate_succ, runR, stepR, ReadTryCancel, ih st]
  refine ⟨hu n stu, hr n str, ?_, ?_⟩
  · rw [hu n stu]; simp [List.mem_replicate]
  · rw [hr n str]; simp [List.mem_replicate]

/-- C9 (implicit): when an item arrives (`OnReadDone(true)`) and the
registered ok-callback declines to hold (`returns false`), the reactor clears
`response_ready_` and immediately issues the next `StartRead` within the same
transport-thread event; the delivered item is discarded — a `GetResponse` on
the resulting state returns false and leaves the caller's argument
unchanged. -/
theorem stream_decline_discards_item {R : Type} (cbs : ReadCallbacks R)
    (f : R → Bool) (st : ReadState R) (r out : R)
    (hcb : cbs.ok = some f) (hdecl : f r = false) :
    stepR cbs st (RInput.readItem r) =
      ({ st with response := r, response_ready := false },
       [Action.cbOk false, Action.startRead]) ∧
    GetResponse (stepR cbs st (RInput.readItem r)).1 out =
      (false, (stepR cbs st (RInput.readItem r)).1, out, []) := by
  constructor
  · simp [stepR, OnReadDone, deliver, hcb, hdecl]
  · simp [stepR, OnReadDone, deliver, GetResponse, hcb, hdecl]

/-- C10 (implicit): if a held item has not yet been taken when `OnDone`
fires, the item stays retrievable: `OnDone` only sets `read_no_more_` and
leaves `response_ready_` true and the payload intact, so a later
`GetResponse` still succeeds exactly once, yields the held item, and issues
neither `StartRead` nor `RemoveHold`; an immediate second `GetResponse`
returns false. -/
theorem held_item_survives_onDone {R : Type} (cbs : ReadCallbacks R)
    (s : GrpcStatus) (st : ReadState R) (out out2 : R)
    (hready : st.response_ready = true) :
    (ReadOnDone cbs s st).1.response_ready = true ∧
    (ReadOnDone cbs s st).1.read_no_more = true ∧
    (ReadOnDone cbs s st).1.response = st.response ∧
    GetResponse (ReadOnDone cbs s st).1 out =
      (true, { (ReadOnDone cbs s st).1 with
                response := out, response_ready := false },
       st.response, []) ∧
    (GetResponse (GetResponse (ReadOnDone cbs s st).1 out).2.1 out2).1 =
      false := by
  cases hd : cbs.done <;>
    refine ⟨?_, ?_, ?_, ?_, ?_⟩ <;>
    simp [ReadOnDone, GetResponse, hd, hready]

/-- C3: single-flight admission — while `reactor_map_[key]` holds a live
reactor, a second `GetFeature` / `ListFeatures` call under the same key is
rejected at the call site: the map is unchanged, no reactor is constructed
and no RPC is issued; once the handler has released the slot
(`reactor_.reset()`), a subsequent call under the same key is admitted and
installs exactly the new reactor. -/
theorem single_flight_admission (m1 m2 : ReactorMap) (h1 h2 id1 id2 id3 id4 : Nat)
    (hg : m1 RpcMethods.kGetFeature = some h1)
    (hl : m2 RpcMethods.kListFeatures = some h2) :
    GetFeatureCall m1 id1 = (m1, false, []) ∧
    ListFeaturesCall m2 id2 = (m2, false, []) ∧
    (GetFeatureCall (resetReactor m1 RpcMethods.kGetFeature) id3).2.1 = true ∧
    (GetFeatureCall (resetReactor m1 RpcMethods.kGetFeature) id3).1
      RpcMethods.kGetFeature = some id3 ∧
    (GetFeatureCall (resetReactor m1 RpcMethods.kGetFeature) id3).2.2 =
      [AppAction.createReactor id3] ∧
    (ListFeaturesCall (resetReactor m2 RpcMethods.kListFeatures) id4).2.1 = true ∧
    (ListFeaturesCall (resetReactor m2 RpcMethods.kListFeatures) id4).1
      RpcMethods.kListFeatures = some id4 := by
  refine ⟨?_, ?_, ?_, ?_, ?_, ?_, ?_⟩ <;>
    simp [GetFeatureCall, ListFeaturesCall, startCall, resetReactor, hg, hl]

/-- C8: the scheduler dispatches exactly one event at a time, in dequeue
order, on the single consumer: the dispatch trace of `runLoop` is exactly the
dequeued events with a registered handler, in FIFO order (the whole queue when
every event is registered), and the resulting state is the serial left-fold of
the individual handler invocations — handlers run one after another, never
interleaved. -/
theorem scheduler_serial_dispatch {S : Type} (hs : HandlerMap S) (st : S)
    (q : List LoopEvent) :
    (runLoop hs st q).2 = q.filter (fun e => (hs e.name).isSome) ∧
    (runLoop hs st q).1 = q.foldl (fun s e => (dispatchOne hs s e).1) st ∧
    ((∀ e ∈ q, (hs e.name).isSome) → (runLoop hs st q).2 = q) := by
  have key : ∀ (l : List LoopEvent) (s : S),
      (runLoop hs s l).2 = l.filter (fun e => (hs e.name).isSome) ∧
      (runLoop hs s l).1 = l.foldl (fun s e => (dispatchOne hs s e).1) s := by
    intro l
    induction l with
    | nil => intro s; simp [runLoop]
    | cons e l ih =>
        intro s
        cases he : hs e.name <;>
          simp [runLoop, dispatchOne, he, (ih _).1, (ih _).2, List.filter_cons]
  refine ⟨(key q st).1, (key q st).2, fun hall => ?_⟩
  rw [(key q st).1]
  exact List.filter_eq_self.mpr (fun e he => by simpa using hall e he)

/-- C1: hold/resume lock-step. (a) When an item is delivered and the
ok-callback decides to hold, the reactor only invokes the callback and calls
`AddHold` — no fetch is issued; (b) from then on, as long as the application
has not called `GetResponse` (and the held transport delivers nothing), no
`StartRead` is ever issued; (c) a successful `GetResponse` on the held, live
handle issues the next `StartRead` and only then `RemoveHold`, in that order;
(d) a run of `n` held items, each followed by its take, produces exactly the
lock-step trace — one `AddHold` plus one `StartRead` and one `RemoveHold` per
held item: exactly one take per held item, in lock-step with the fetches. -/
theorem stream_hold_resume_lockstep {R : Type} (cbs : ReadCallbacks R)
    (f : R → Bool) (st stq sth stl : ReadState R) (r out : R)
    (l : List (RInput R)) (n : Nat)
    (hcb : cbs.ok = some f) (hold : f r = true)
    (hquiet : ∀ i ∈ l, (∀ x : R, i ≠ RInput.readItem x) ∧
      (∀ o : R, i ≠ RInput.take o))
    (hready : sth.response_ready = true) (hlive : sth.read_no_more = false)
    (hlive2 : stl.read_no_more = false) :
    stepR cbs st (RInput.readItem r) =
      ({ st with response := r, response_ready := true },
       [Action.cbOk true, Action.addHold]) ∧
    Action.startRead ∉ (runR cbs stq l).2 ∧
    GetResponse sth out =
      (true, { sth with response := out, response_ready := false },
       sth.response, [Action.startRead, Action.removeHold]) ∧
    (runR cbs stl (lockstepInputs r out n)).2 = lockstepTrace n ∧
    ((runR cbs stl (lockstepInputs r out n)).2).count Action.startRead = n ∧
    ((runR cbs stl (lockstepInputs r out n)).2).count Action.removeHold = n := by
  have hd := runR_lockstep cbs f r out hcb hold n stl hlive2
  refine ⟨?_, ?_, ?_, hd, ?_, ?_⟩
  · simp [stepR, OnReadDone, deliver, hcb, hold]
  · exact runR_quiet_no_startRead cbs stq l hquiet
  · simp [GetResponse, hready, hlive]
  · rw [hd]; exact (lockstepTrace_count n).1
  · rw [hd]; exact (lockstepTrace_count n).2.1

/-- C4: the terminal state is absorbing. `OnDone` and `OnReadDone(false)` both
set `read_no_more_`; no stimulus ever clears it again; once set, and with the
transport delivering no further items (gRPC fires no read event after the
terminal one), no `StartRead` is ever issued on the handle; in particular a
later `GetResponse` on a held payload succeeds but skips the resume step
entirely (no `StartRead`, no `RemoveHold`). -/
theorem terminal_state_absorbing {R : Type} (cbs : ReadCallbacks R)
    (s : GrpcStatus) (st stt : ReadState R) (out : R)
    (l l2 : List (RInput R))
    (hterm : stt.read_no_more = true)
    (hnoread : ∀ i ∈ l, ∀ x : R, i ≠ RInput.readItem x)
    (hready : stt.response_ready = true) :
    (stepR cbs st (RInput.finish s)).1.read_no_more = true ∧
    (stepR cbs st RInput.readFail).1.read_no_more = true ∧
    ((runR cbs stt l2).1).read_no_more = true ∧
    Action.startRead ∉ (runR cbs stt l).2 ∧
    GetResponse stt out =
      (true, { stt with response := out, response_ready := false },
       stt.response, []) := by
  refine ⟨?_, ?_, ?_, ?_, ?_⟩
  · cases hd : cbs.done <;> simp [stepR, ReadOnDone, hd]
  · cases hn : cbs.nok <;> simp [stepR, OnReadDone, hn]
  · exact runR_preserves_terminal cbs stt l2 hterm
  · exact runR_terminal_no_startRead cbs l stt hterm hnoread
  · simp [GetResponse, hready, hterm]

/-! ### Concrete witnesses -/

/-- Witness for C5 at concrete inputs: a fresh (not ready) handle of either
kind refuses `GetResponse` and leaves the argument untouched. -/
theorem getResponse_unavailable_witness :
    UGetResponse (UnaryState.initial (0 : Nat)) 9 =
      (false, UnaryState.initial 0, 9) ∧
    GetResponse (ReadState.initial (0 : Nat)) 9 =
      (false, ReadState.initial 0, 9, []) :=
  ⟨(getResponse_unavailable (UnaryState.initial 0) (ReadState.initial 0) true
      (GrpcStatus.mk 1 "CANCELLED") 9 9 rfl rfl (by decide)).1,
   (getResponse_unavailable (UnaryState.initial 0) (ReadState.initial 0) true
      (GrpcStatus.mk 1 "CANCELLED") 9 9 rfl rfl (by decide)).2.1⟩

/-- Witness for C6 at concrete inputs: payload 7 delivered by the transport is
exactly what the taker receives, for both reactors. -/
theorem response_round_trip_witness :
    (UGetResponse (UOnDone true (GrpcStatus.mk 0 "")
        (udeliver 7 (UnaryState.initial (0 : Nat)))).1 9).2.2 = 7 ∧
    (GetResponse (stepR (⟨some (fun _ => true), true, true⟩ : ReadCallbacks Nat)
        (ReadState.initial 0) (RInput.readItem 7)).1 9).2.2.1 = 7 :=
  ⟨(response_round_trip true (GrpcStatus.mk 0 "") (UnaryState.initial 0)
      ⟨some (fun _ => true), true, true⟩ (fun _ => true) (ReadState.initial 0)
      7 9 (by decide) rfl rfl rfl).2.1,
   (response_round_trip true (GrpcStatus.mk 0 "") (UnaryState.initial 0)
      ⟨some (fun _ => true), true, true⟩ (fun _ => true) (ReadState.initial 0)
      7 9 (by decide) rfl rfl rfl).2.2.2.2.1⟩

/-- Witness for C9 at concrete inputs: a declined item 7 is dropped and the
next fetch is issued at once. -/
theorem stream_decline_discards_item_witness :
    stepR (⟨some (fun _ => false), true, true⟩ : ReadCallbacks Nat)
        (ReadState.initial 0) (RInput.readItem 7) =
      ({ ReadState.initial 0 with response := 7, response_ready := false },
       [Action.cbOk false, Action.startRead]) :=
  (stream_decline_discards_item ⟨some (fun _ => false), true, true⟩
    (fun _ => false) (ReadState.initial 0) 7 9 rfl rfl).1

/-- Witness for C10 at concrete inputs: a held item survives `OnDone` and is
still marked ready afterwards. -/
theorem held_item_survives_onDone_witness :
    (ReadOnDone (⟨some (fun _ => true), true, true⟩ : ReadCallbacks Nat)
        (GrpcStatus.mk 0 "") ⟨7, GrpcStatus.initial, true, false⟩).1.response_ready
      = true ∧
    (ReadOnDone (⟨some (fun _ => true), true, true⟩ : ReadCallbacks Nat)
        (GrpcStatus.mk 0 "") ⟨7, GrpcStatus.initial, true, false⟩).1.read_no_more
      = true :=
  ⟨(held_item_survives_onDone ⟨some (fun _ => true), true, true⟩
      (GrpcStatus.mk 0 "") ⟨7, GrpcStatus.initial, true, false⟩ 9 3 rfl).1,
   (held_item_survives_onDone ⟨some (fun _ => true), true, true⟩
      (GrpcStatus.mk 0 "") ⟨7, GrpcStatus.initial, true, false⟩ 9 3 rfl).2.1⟩

/-- Witness for C3 at concrete inputs: with reactors 1 and 2 live, a
`GetFeature` call is rejected without any effect. -/
theorem single_flight_admission_witness :
    GetFeatureCall
        (fun k => if k = RpcMethods.kGetFeature then some 1 else some 2) 5 =
      ((fun k => if k = RpcMethods.kGetFeature then some 1 else some 2),
       false, []) ∧
    (GetFeatureCall
        (resetReactor
          (fun k => if k = RpcMethods.kGetFeature then some 1 else some 2)
          RpcMethods.kGetFeature) 7).2.1 = true :=
  ⟨(single_flight_admission
      (fun k => if k = RpcMethods.kGetFeature then some 1 else some 2)
      (fun k => if k = RpcMethods.kGetFeature then some 1 else some 2)
      1 2 5 6 7 8 (by decide) (by decide)).1,
   (single_flight_admission
      (fun k => if k = RpcMethods.kGetFeature then some 1 else some 2)
      (fun k => if k = RpcMethods.kGetFeature then some 1 else some 2)
      1 2 5 6 7 8 (by decide) (by decide)).2.2.1⟩

/-- Witness for C8 at concrete inputs: a queue of two registered events is
dispatched whole, in order. -/
theorem scheduler_serial_dispatch_witness :
    (runLoop (fun n => if n = "h" then some (fun s p => s + p) else none)
      (0 : Nat) [⟨"h", 1⟩, ⟨"h", 2⟩]).2 = [⟨"h", 1⟩, ⟨"h", 2⟩] :=
  (scheduler_serial_dispatch
    (fun n => if n = "h" then some (fun s p => s + p) else none) 0
    [⟨"h", 1⟩, ⟨"h", 2⟩]).2.2 (by decide)

/-- Witness for C1 at concrete inputs: two held items, two takes, lock-step
trace. -/
theorem stream_hold_resume_lockstep_witness :
    (runR (⟨some (fun _ => true), true, true⟩ : ReadCallbacks Nat)
        (ReadState.initial 0) (lockstepInputs 5 0 2)).2 = lockstepTrace 2 :=
  (stream_hold_resume_lockstep ⟨some (fun _ => true), true, true⟩
    (fun _ => true) (ReadState.initial 0) (ReadState.initial 0)
    ⟨7, GrpcStatus.initial, true, false⟩ (ReadState.initial 0) 5 0
    [RInput.readFail, RInput.cancel] 2
    rfl rfl (by simp) rfl rfl rfl).2.2.2.1

/-- Witness for C4 at concrete inputs: on a terminated handle holding item 7,
`GetResponse` succeeds without issuing any transport call. -/
theorem terminal_state_absorbing_witness :
    GetResponse (⟨7, GrpcStatus.initial, true, true⟩ : ReadState Nat) 9 =
      (true, ⟨9, GrpcStatus.initial, false, true⟩, 7, []) :=
  (terminal_state_absorbing ⟨some (fun _ => true), true, true⟩
    (GrpcStatus.mk 0 "") (ReadState.initial 0)
    ⟨7, GrpcStatus.initial, true, true⟩ 9
    [RInput.readFail, RInput.cancel] [RInput.cancel]
    rfl (by simp) rfl).2.2.2.2
